import Mathlib

/-!
Shallow embedding of the `yewtube` crate (src/ext.rs, src/component.rs,
src/main.rs): a Yew component wrapping the YouTube iframe player behind a
finite-state lifecycle controller.

Conventions of the embedding:
* Foreign `JsValue` closures and `YT.Player` handles are opaque at the Rust
  level; they are modelled by `Nat` identities allocated from an explicit
  fresh-id counter threaded through the transition function.
* Calls into the foreign API (`YT.Player::new`, `addEventListener`,
  `removeEventListener`) and invocations of the host callback are recorded
  in an effect trace, in the order the Rust code performs them.
* Async functions are modelled either as a total function from a browser
  environment to an `Outcome` (resolved / rejected / pending forever /
  panicked), or — where interleaving matters — as a resumable process with
  explicit suspension points, one constructor per `.await` in the source.
* `panic!` / `.unwrap()` failure is modelled by `Outcome.panicked` or by
  `Option.none`, never by a default value.
-/

namespace ext

/-- `ext::PlayerState` (src/ext.rs lines 115-123): playback states of the
foreign widget, with discriminants -1, 0, 1, 2, 3, 5. -/
inductive PlayerState
  | Unstarted
  | Ended
  | Playing
  | Paused
  | Buffering
  | Cued
deriving DecidableEq, Repr

/-- The numeric discriminant of each `PlayerState` variant, as declared in
the Rust enum (`Unstarted = -1`, ..., `Cued = 5`). -/
def PlayerState.code : PlayerState → Int
  | .Unstarted => -1
  | .Ended => 0
  | .Playing => 1
  | .Paused => 2
  | .Buffering => 3
  | .Cued => 5

/-- `derive(Debug)` rendering of `ext::PlayerState`: the variant name. -/
def PlayerState.debugFmt : PlayerState → String
  | .Unstarted => "Unstarted"
  | .Ended => "Ended"
  | .Playing => "Playing"
  | .Paused => "Paused"
  | .Buffering => "Buffering"
  | .Cued => "Cued"

/-- The `match state as i32` arm of `TryFrom<JsValue> for PlayerState`
(src/ext.rs lines 132-140): maps a numeric code to a playback state, any
unknown code to `Err("invalid player state")`. -/
def PlayerState.tryFromCode (state : Int) : Except String PlayerState :=
  if state = -1 then .ok .Unstarted
  else if state = 0 then .ok .Ended
  else if state = 1 then .ok .Playing
  else if state = 2 then .ok .Paused
  else if state = 3 then .ok .Buffering
  else if state = 5 then .ok .Cued
  else .error "invalid player state"

/-- `TryFrom<JsValue> for PlayerState` (src/ext.rs lines 125-142).  The
input is the event payload's `data` field viewed as an integer: `none`
models a missing or non-numeric `data` field (the `as_f64` /
`Reflect::get` failure path), `some state` a numeric discriminator. -/
def PlayerState.tryFromData : Option Int → Except String PlayerState
  | none => .error "invalid player state"
  | some state => PlayerState.tryFromCode state

/-- `Player::get_player_state` (src/ext.rs lines 172-184), as a function of
the raw `i32` returned by the foreign `getPlayerState` call.  The
`panic!("unknown player state")` arm is modelled by `none`; a returned
state is `some`. -/
def get_player_state (raw : Int) : Option PlayerState :=
  if raw = -1 then some .Unstarted
  else if raw = 0 then some .Ended
  else if raw = 1 then some .Playing
  else if raw = 2 then some .Paused
  else if raw = 3 then some .Buffering
  else if raw = 5 then some .Cued
  else none

/-- Completion behaviour of an async Rust function: it can resolve, reject
with an error (the string renders the `JsValue` error), suspend forever
without settling, or panic (`unwrap` failure). -/
inductive Outcome
  | resolved
  | rejected (e : String)
  | pending
  | panicked
deriving DecidableEq, Repr

/-- Whether an `Outcome` is a rejection. -/
def Outcome.isRejected : Outcome → Bool
  | .rejected _ => true
  | _ => false

/-- Browser-side environment facts that decide each fallible step of
`load_iframe_api`: existence of `window`, `document` and `document.body`,
success of script-element creation and of `append_child`, and whether the
appended script's `onload` event ever fires (false on a network error). -/
structure BrowserEnv where
  windowExists : Bool
  documentExists : Bool
  createScriptOk : Bool
  bodyExists : Bool
  appendOk : Bool
  scriptOnloadFires : Bool
deriving DecidableEq, Repr

/-- `load_iframe_api` (src/ext.rs lines 7-30) as a function of the browser
environment.  The source installs only an `onload` handler on the injected
script (no `onerror`) and `forget`s the closure, so the oneshot sender is
never dropped: if `onload` never fires the `receiver.await` suspends
forever (`Outcome.pending`).  `document.body().unwrap()` on a missing body
is a panic.  Errors propagated by `?` before the await reject the future;
the two `ok_or` messages are the source's strings, the other rejection
strings stand for opaque `JsValue` errors. -/
def load_iframe_api (env : BrowserEnv) : Outcome :=
  if ¬ env.windowExists then .rejected "No global `window` exists"
  else if ¬ env.documentExists then .rejected "Should have a document on window"
  else if ¬ env.createScriptOk then .rejected "script element creation failed"
  else if ¬ env.bodyExists then .panicked
  else if ¬ env.appendOk then .rejected "append_child failed"
  else if env.scriptOnloadFires then .resolved
  else .pending

/-- Whether `load_iframe_api` reaches the `append_child` call successfully,
i.e. actually injects a script element into the document. -/
def load_injects (env : BrowserEnv) : Bool :=
  env.windowExists && env.documentExists && env.createScriptOk
    && env.bodyExists && env.appendOk

/-- State of one in-flight `yt_iframe_api_ready` call (src/ext.rs lines
46-71), one constructor per suspension point of the source:
`awaitingOnload` is the `receiver.await` inside `load_iframe_api`,
`awaitingApiReady` the outer `receiver.await` on the
`onYouTubeIframeAPIReady` channel. -/
inductive GateProc
  | start
  | awaitingOnload
  | awaitingApiReady
  | done (r : Outcome)
deriving DecidableEq, Repr

/-- Process-wide browser state shared by all `yt_iframe_api_ready` callers:
whether `window.YT` is defined and has a `Player` property, how many
script elements have been appended to the document, and which caller's
resolver is currently stored in `window.onYouTubeIframeAPIReady`
(`Reflect::set` overwrites any previous value). -/
structure World where
  ytDefined : Bool
  ytHasPlayer : Bool
  scripts : Nat
  readyHandler : Option Nat
deriving DecidableEq, Repr

/-- Synchronous prefix of `yt_iframe_api_ready` (src/ext.rs lines 46-53), up
to its first suspension point.  `window().unwrap()` panics without a
window; if `YT` is defined and has `Player` the call resolves immediately
(fast path, no injection); otherwise it runs `load_iframe_api`'s
synchronous prefix — rejecting on the pre-await failure paths, and on
success appending a fresh script element and suspending on that script's
`onload`. -/
def gateStart (env : BrowserEnv) (w : World) : GateProc × World :=
  if ¬ env.windowExists then (.done .panicked, w)
  else if w.ytDefined && w.ytHasPlayer then (.done .resolved, w)
  else if ¬ env.documentExists then
    (.done (.rejected "Should have a document on window"), w)
  else if ¬ env.createScriptOk then
    (.done (.rejected "script element creation failed"), w)
  else if ¬ env.bodyExists then (.done .panicked, w)
  else if ¬ env.appendOk then (.done (.rejected "append_child failed"), w)
  else (.awaitingOnload, { w with scripts := w.scripts + 1 })

/-- Resumption of caller `caller` when its injected script's `onload` event
fires (src/ext.rs lines 53-63): `load_iframe_api` returns, the caller
builds its resolver closure, stores it in `window.onYouTubeIframeAPIReady`
— overwriting whatever was there — and suspends awaiting that resolver.
A caller not suspended on `onload` is unaffected. -/
def gateOnload (caller : Nat) (p : GateProc) (w : World) : GateProc × World :=
  match p with
  | .awaitingOnload => (.awaitingApiReady, { w with readyHandler := some caller })
  | _ => (p, w)

/-- Resumption of one caller by the `onYouTubeIframeAPIReady` resolver
(src/ext.rs lines 64-69): the outer await returns and the call resolves
with `window.YT`. -/
def resumeApiReady : GateProc → GateProc
  | .awaitingApiReady => .done .resolved
  | p => p

/-- The foreign iframe-api script finishing: it defines `window.YT` (with
`Player`) and then invokes `window.onYouTubeIframeAPIReady` — which is the
single closure currently stored there, so only that caller's resolver
runs.  Specialised to two callers `0` and `1` with processes `p0`, `p1`. -/
def apiReadyFire (p0 p1 : GateProc) (w : World) : GateProc × GateProc × World :=
  let w' := { w with ytDefined := true, ytHasPlayer := true }
  match w.readyHandler with
  | some 0 => (resumeApiReady p0, p1, w')
  | some 1 => (p0, resumeApiReady p1, w')
  | _ => (p0, p1, w')

/-- `ext::PlayerVars` (src/ext.rs lines 73-101): the `playerVars` options
record, every field optional and omitted when `None`.  Numeric `u8`/`u32`
fields are modelled by `Nat`. -/
structure PlayerVars where
  autoplay : Option Nat
  controls : Option Nat
  enable_js_api : Option Nat
  full_screen : Option Nat
  iv_load_policy : Option Nat
  modest_branding : Option Nat
  plays_inline : Option Nat
  related_videos : Option Nat
  show_info : Option Nat
  start : Option Nat
  «end» : Option Nat
  origin : Option String
  widget_referrer : Option String
deriving DecidableEq, Repr

/-- `PlayerVars::default()`: every field `None`. -/
def PlayerVars.default : PlayerVars :=
  ⟨none, none, none, none, none, none, none, none, none, none, none, none, none⟩

/-- `ext::Options` (src/ext.rs lines 103-113): constructor options passed to
`YT.Player::new`. -/
structure Options where
  height : Option Nat
  width : Option Nat
  video_id : Option String
  player_vars : Option PlayerVars
deriving DecidableEq, Repr

end ext

namespace component

/-- `component::Props` (src/component.rs lines 9-17).  The
`on_state_change : Option Callback<ext::PlayerState>` field is an opaque
host callback; only its presence matters to the transition function, so it
is modelled by a `Bool`. -/
structure Props where
  video_id : String
  width : Option Nat
  height : Option Nat
  autoplay : Option Bool
  on_state_change : Bool
deriving DecidableEq, Repr

/-- The part of Yew's `Context<Player>` the transition function reads: the
component's props.  (`ctx.link()` callbacks feed messages back into the
component; their creation has no observable effect modelled here.) -/
structure Ctx where
  props : Props
deriving DecidableEq, Repr

/-- `component::Msg` (src/component.rs lines 176-182).  `Failed` carries a
`JsValue` error, modelled by its opaque debug rendering. -/
inductive Msg
  | Initialized
  | Ready
  | PlayerStateChange (s : ext.PlayerState)
  | Failed (e : String)
deriving DecidableEq, Repr

/-- `derive(Debug)` rendering of `component::Msg`, as interpolated by
`format!("... {:?} ...", msg)` in the failure branches. -/
def Msg.debugFmt : Msg → String
  | .Initialized => "Initialized"
  | .Ready => "Ready"
  | .PlayerStateChange s => "PlayerStateChange(" ++ s.debugFmt ++ ")"
  | .Failed e => "Failed(" ++ e ++ ")"

/-- The private `component::PlayerState` enum together with the per-state
structs it wraps (src/component.rs lines 36-159).  `Rc<ext::Player>`
handles and `Rc<Closure<dyn FnMut(JsValue)>>` listener closures are opaque
foreign values, modelled by their `Nat` identities. -/
inductive PlayerState
  | Uninitialized
  | Initialized (ext_player : Nat) (on_ready : Nat)
  | Ready (ext_player : Nat) (on_state_change : Nat)
  | Failed (err : String) (stale_closures : List Nat)
deriving DecidableEq, Repr

/-- Whether a `component::PlayerState` is the `Failed` variant (the pattern
matched by `Player::update` to decide re-rendering). -/
def PlayerState.isFailed : PlayerState → Bool
  | .Failed _ _ => true
  | _ => false

/-- One observable effect of a transition: a call into the foreign widget
API, or an invocation of the host's `on_state_change` callback
(`cb.emit(s)`). -/
inductive Effect
  | newPlayer (target_id : String) (options : ext.Options)
  | addEventListener (event : String) (closure : Nat)
  | removeEventListener (event : String) (closure : Nat)
  | emitStateChange (s : ext.PlayerState)
deriving DecidableEq, Repr

/-- The `ext::Options` value built in `Uninitialized::transition`
(src/component.rs lines 45-53): props passed through, `autoplay` mapped to
`1`/`0`, all other `PlayerVars` fields defaulted. -/
def optionsOfProps (p : Props) : ext.Options :=
  { height := p.height
    width := p.width
    video_id := some p.video_id
    player_vars := some { ext.PlayerVars.default with
                          autoplay := p.autoplay.map (fun x => if x then 1 else 0) } }

/-- The FSM transition function: `impl FsmState for PlayerState`
(src/component.rs lines 161-170) dispatching to the four per-state
`transition` impls (lines 39-151).  Besides the next state it returns the
effect trace in source order and the advanced fresh-id counter (each
`Player::new` / `Closure` creation allocates one identity). -/
def transition : PlayerState → Msg → Ctx → Nat → PlayerState × List Effect × Nat
  | .Uninitialized, .Initialized, ctx, fresh =>
    -- Uninitialized::transition, Msg::Initialized arm (lines 42-66):
    -- construct the widget, then register the one-shot onReady closure.
    let ext_player := fresh
    let closure_ready := fresh + 1
    (.Initialized ext_player closure_ready,
      [.newPlayer "youtube-player-placeholder" (optionsOfProps ctx.props),
       .addEventListener "onReady" closure_ready],
      fresh + 2)
  | .Uninitialized, msg, _, fresh =>
    (.Failed ("Invalid message " ++ msg.debugFmt ++ " in Uninitialized state") [],
      [], fresh)
  | .Initialized ext_player on_ready, .Ready, _, fresh =>
    -- Initialized::transition, Msg::Ready arm (lines 84-103): the
    -- onStateChange listener is added BEFORE the onReady listener is
    -- removed, in this source order.
    let closure_state_change := fresh
    (.Ready ext_player closure_state_change,
      [.addEventListener "onStateChange" closure_state_change,
       .removeEventListener "onReady" on_ready],
      fresh + 1)
  | .Initialized _ on_ready, msg, _, fresh =>
    (.Failed ("Invalid message " ++ msg.debugFmt ++ " in Initialized state") [on_ready],
      [], fresh)
  | .Ready ext_player on_state_change, .PlayerStateChange s, ctx, fresh =>
    (.Ready ext_player on_state_change,
      if ctx.props.on_state_change then [.emitStateChange s] else [],
      fresh)
  | .Ready _ on_state_change, msg, _, fresh =>
    -- best-effort removal (flagged in the source as not actually working
    -- on the foreign side), then Failed retaining the stale closure
    (.Failed ("Invalid message " ++ msg.debugFmt ++ " in Ready state") [on_state_change],
      [.removeEventListener "onStateChange" on_state_change],
      fresh)
  | .Failed err stale_closures, _, _, fresh =>
    (.Failed err stale_closures, [], fresh)

/-- Iterated transitions over a message sequence, accumulating the effect
trace. -/
def run : PlayerState → List Msg → Ctx → Nat → PlayerState × List Effect × Nat
  | s, [], _, fresh => (s, [], fresh)
  | s, msg :: msgs, ctx, fresh =>
    let r := transition s msg ctx fresh
    let r' := run r.1 msgs ctx r.2.2
    (r'.1, r.2.1 ++ r'.2.1, r'.2.2)

/-- The host-callback invocations recorded in an effect trace, in order. -/
def notifies : List Effect → List ext.PlayerState
  | [] => []
  | .emitStateChange s :: rest => s :: notifies rest
  | _ :: rest => notifies rest

/-- The name of the state a transition was taken from, as interpolated into
the failure reason strings of the source. -/
def stateName : PlayerState → String
  | .Uninitialized => "Uninitialized"
  | .Initialized _ _ => "Initialized"
  | .Ready _ _ => "Ready"
  | .Failed _ _ => "Failed"

/-- The listener closures live in a state: the onReady closure in
`Initialized`, the onStateChange closure in `Ready`, the retained stale
closures in `Failed`, none in `Uninitialized`. -/
def liveTokens : PlayerState → List Nat
  | .Uninitialized => []
  | .Initialized _ on_ready => [on_ready]
  | .Ready _ on_state_change => [on_state_change]
  | .Failed _ stale_closures => stale_closures

/-- Whether `(state, msg)` is one of the three matching (non-failing) pairs
of the transition table. -/
def isMatching : PlayerState → Msg → Bool
  | .Uninitialized, .Initialized => true
  | .Initialized _ _, .Ready => true
  | .Ready _ _, .PlayerStateChange _ => true
  | _, _ => false

/-- `component::Player` (src/component.rs lines 172-174). -/
structure Player where
  state : PlayerState
deriving DecidableEq, Repr

/-- Result of one `Player::update` step: the updated component, the effect
trace, the advanced fresh counter, and the returned `bool` (Yew's
"should re-render" flag). -/
structure UpdateResult where
  player : Player
  effects : List Effect
  fresh : Nat
  shouldRender : Bool
deriving DecidableEq, Repr

/-- `Player::update` (src/component.rs lines 199-207): transition on the
message, then re-render exactly when the resulting state is `Failed`. -/
def Player.update (p : Player) (ctx : Ctx) (msg : Msg) (fresh : Nat) : UpdateResult :=
  let r := transition p.state msg ctx fresh
  { player := ⟨r.1⟩
    effects := r.2.1
    fresh := r.2.2
    shouldRender := match r.1 with
      | .Failed _ _ => true
      | _ => false }

/-- Removes every registration of closure `closure` for event `event` from
a registration list (the foreign `removeEventListener` semantics, assuming
removal by (event, closure) identity works as requested). -/
def removeReg (event : String) (closure : Nat) :
    List (String × Nat) → List (String × Nat)
  | [] => []
  | (e, c) :: rest =>
    if e = event then
      (if c = closure then removeReg event closure rest
       else (e, c) :: removeReg event closure rest)
    else (e, c) :: removeReg event closure rest

/-- Effect of one foreign-API call on the set of currently registered
listeners (pairs of event name and closure identity); host-callback and
constructor effects leave it unchanged. -/
def applyListenerEffect (regs : List (String × Nat)) : Effect → List (String × Nat)
  | .addEventListener e c => regs ++ [(e, c)]
  | .removeEventListener e c => removeReg e c regs
  | _ => regs

/-- The registered-listener set after performing a prefix of an effect
trace, starting from `init`. -/
def registeredAfter (init : List (String × Nat)) : List Effect → List (String × Nat)
  | [] => init
  | e :: rest => registeredAfter (applyListenerEffect init e) rest

end component

/-- A concrete context mirroring the mount in src/main.rs line 21: a video
id and an `on_state_change` callback present, all optional props omitted. -/
def ctx0 : component.Ctx := ⟨⟨"r71Nhzh0xMU", none, none, none, true⟩⟩

/-- A healthy browser environment: window, document and body exist, script
creation and append succeed, and injected scripts load. -/
def envOk : ext.BrowserEnv := ⟨true, true, true, true, true, true⟩

/-- A healthy browser environment whose injected script never fires
`onload` (network failure). -/
def envNetFail : ext.BrowserEnv := ⟨true, true, true, true, true, false⟩

/-- Initial shared state with the foreign API absent and no script
injected. -/
def w0 : ext.World := ⟨false, false, 0, none⟩

/-- C1: the playback-state translation maps the foreign codes -1, 0, 1, 2,
3, 5 to Unstarted, Ended, Playing, Paused, Buffering, Cued respectively,
and every other integer code to the translation error, never to a state. -/
theorem C1_playback_translation :
    (ext.PlayerState.tryFromData (some (-1)) = .ok .Unstarted
      ∧ ext.PlayerState.tryFromData (some 0) = .ok .Ended
      ∧ ext.PlayerState.tryFromData (some 1) = .ok .Playing
      ∧ ext.PlayerState.tryFromData (some 2) = .ok .Paused
      ∧ ext.PlayerState.tryFromData (some 3) = .ok .Buffering
      ∧ ext.PlayerState.tryFromData (some 5) = .ok .Cued)
    ∧ ∀ n : Int, n ≠ -1 → n ≠ 0 → n ≠ 1 → n ≠ 2 → n ≠ 3 → n ≠ 5 →
        ext.PlayerState.tryFromData (some n) = .error "invalid player state" := by
  refine ⟨⟨rfl, rfl, rfl, rfl, rfl, rfl⟩, ?_⟩
  intro n h1 h2 h3 h4 h5 h6
  simp [ext.PlayerState.tryFromData, ext.PlayerState.tryFromCode,
    h1, h2, h3, h4, h5, h6]

/-- Witness for C1 at the unknown code 4. -/
theorem C1_playback_translation_witness :
    ext.PlayerState.tryFromData (some 4) = .error "invalid player state" :=
  C1_playback_translation.2 4 (by decide) (by decide) (by decide) (by decide)
    (by decide) (by decide)

/-- C2: Failed is absorbing — one transition from `Failed` returns the very
same state (reason and retained stale closures unchanged) with no effects,
and any further message sequence leaves the controller in that same
`Failed` state. -/
theorem C2_failed_absorbing (err : String) (ts : List Nat) (msg : component.Msg)
    (msgs : List component.Msg) (ctx : component.Ctx) (fresh : Nat) :
    component.transition (.Failed err ts) msg ctx fresh = (.Failed err ts, [], fresh)
    ∧ (component.run (.Failed err ts) msgs ctx fresh).1 = .Failed err ts := by
  constructor
  · cases msg <;> rfl
  · induction msgs generalizing fresh with
    | nil => rfl
    | cons m ms ih =>
      cases m <;> simp [component.run, component.transition] <;> exact ih _

/-- C10: `get_player_state` returns the matching `PlayerState` for each of
the known foreign codes and panics (modelled by `none`) on every other
code: it is total only under the precondition that the widget reports a
known code. -/
theorem C10_get_player_state_partial :
    (ext.get_player_state (-1) = some .Unstarted
      ∧ ext.get_player_state 0 = some .Ended
      ∧ ext.get_player_state 1 = some .Playing
      ∧ ext.get_player_state 2 = some .Paused
      ∧ ext.get_player_state 3 = some .Buffering
      ∧ ext.get_player_state 5 = some .Cued)
    ∧ ∀ n : Int, n ≠ -1 → n ≠ 0 → n ≠ 1 → n ≠ 2 → n ≠ 3 → n ≠ 5 →
        ext.get_player_state n = none := by
  refine ⟨⟨rfl, rfl, rfl, rfl, rfl, rfl⟩, ?_⟩
  intro n h1 h2 h3 h4 h5 h6
  simp [ext.get_player_state, h1, h2, h3, h4, h5, h6]

/-- Witness for C10 at the unknown code 4. -/
theorem C10_get_player_state_partial_witness : ext.get_player_state 4 = none :=
  C10_get_player_state_partial.2 4 (by decide) (by decide) (by decide) (by decide)
    (by decide) (by decide)

/-- C3 counterexample: during the Initializing→Ready transition (state
`Initialized 0 1`, counter at 2), after the first foreign call of the
transition — the `addEventListener("onStateChange", ...)` — the "ready"
listener (closure 1) and the "state-change" listener (closure 2) are both
registered at once, contradicting the claim that the two registrations
never overlap. -/
theorem C3_counterexample :
    component.registeredAfter [("onReady", 1)]
      (((component.transition (.Initialized 0 1) .Ready ctx0 2).2.1).take 1)
      = [("onReady", 1), ("onStateChange", 2)] := by
  rfl

/-- C3 amended: the Initializing→Ready transition registers the
"state-change" listener first and only then deregisters the "ready"
listener, so the two listeners are simultaneously registered between those
two calls; once the transition completes, only the "state-change" listener
remains registered. -/
theorem C3_swap_order (p r : Nat) (ctx : component.Ctx) (fresh : Nat) :
    (component.transition (.Initialized p r) .Ready ctx fresh).2.1
      = [.addEventListener "onStateChange" fresh, .removeEventListener "onReady" r]
    ∧ component.registeredAfter [("onReady", r)]
        (((component.transition (.Initialized p r) .Ready ctx fresh).2.1).take 1)
      = [("onReady", r), ("onStateChange", fresh)]
    ∧ component.registeredAfter [("onReady", r)]
        ((component.transition (.Initialized p r) .Ready ctx fresh).2.1)
      = [("onStateChange", fresh)] := by
  refine ⟨rfl, rfl, ?_⟩
  simp [component.transition, component.registeredAfter,
    component.applyListenerEffect, component.removeReg]

/-- C4: every non-matching (state, message) pair in a non-Failed state
transitions to `Failed` with a reason naming both the offending message
(its debug rendering) and the state it arrived in, and with the retained
stale-closure list holding exactly the listener closures live in that
state: none from Uninitialized, the "ready" closure from Initialized
(Initializing), the "state-change" closure from Ready. -/
theorem C4_failure_shape (ctx : component.Ctx) (fresh p r c : Nat)
    (msg : component.Msg) :
    (component.isMatching .Uninitialized msg = false →
      (component.transition .Uninitialized msg ctx fresh).1
        = .Failed ("Invalid message " ++ msg.debugFmt ++ " in Uninitialized state") [])
    ∧ (component.isMatching (.Initialized p r) msg = false →
      (component.transition (.Initialized p r) msg ctx fresh).1
        = .Failed ("Invalid message " ++ msg.debugFmt ++ " in Initialized state") [r])
    ∧ (component.isMatching (.Ready p c) msg = false →
      (component.transition (.Ready p c) msg ctx fresh).1
        = .Failed ("Invalid message " ++ msg.debugFmt ++ " in Ready state") [c]) := by
  refine ⟨?_, ?_, ?_⟩ <;> intro h <;> cases msg <;>
    simp_all [component.isMatching, component.transition]

/-- Witness for C4: a Ready controller (state-change closure 1) receiving
the unexpected bootstrap message fails with a reason naming the message
and the Ready state, retaining exactly the state-change closure. -/
theorem C4_failure_shape_witness :
    (component.transition (.Ready 0 1) .Initialized ctx0 0).1
      = .Failed ("Invalid message " ++ (component.Msg.debugFmt .Initialized)
          ++ " in Ready state") [1] :=
  (C4_failure_shape ctx0 0 0 0 1 .Initialized).2.2 rfl

/-- C5 counterexample: a controller already in `Failed` that receives a
further message still gets `true` back from `update` — an additional
re-render request — contradicting the claim that no further message causes
one once Failed. -/
theorem C5_counterexample :
    (component.Player.update ⟨.Failed "boom" []⟩ ctx0 .Ready 0).shouldRender = true := by
  rfl

/-- C5 amended: `update` requests a re-render exactly when the
post-transition state is `Failed` — true on entry to Failed and again on
every message processed while already Failed, false for every message
whose resulting state is non-Failed (including the steady-state
StateChanged self-loop in Ready). -/
theorem C5_render_iff_failed (p : component.Player) (ctx : component.Ctx)
    (msg : component.Msg) (fresh : Nat) :
    (component.Player.update p ctx msg fresh).shouldRender
      = ((component.Player.update p ctx msg fresh).player.state).isFailed := by
  obtain ⟨s⟩ := p
  cases s <;> cases msg <;>
    simp [component.Player.update, component.transition, component.PlayerState.isFailed]

/-- C6: from Uninitialized, the sequence BootstrapReady (`Msg::Initialized`),
WidgetReady (`Msg::Ready`), StateChanged(1) (`Msg::PlayerStateChange` with
the translation of code 1, i.e. Playing) drives the controller through
Initializing (`Initialized`) and into Ready, leaves it in Ready, and —
when the host supplied an `on_state_change` callback — invokes that
callback exactly once, with `Playing`. -/
theorem C6_scenario (ctx : component.Ctx) (fresh : Nat)
    (h : ctx.props.on_state_change = true) :
    (component.transition .Uninitialized .Initialized ctx fresh).1
      = .Initialized fresh (fresh + 1)
    ∧ (component.transition (.Initialized fresh (fresh + 1)) .Ready ctx (fresh + 2)).1
      = .Ready fresh (fresh + 2)
    ∧ ext.PlayerState.tryFromData (some 1) = .ok .Playing
    ∧ (component.run .Uninitialized
        [.Initialized, .Ready, .PlayerStateChange .Playing] ctx fresh).1
      = .Ready fresh (fresh + 2)
    ∧ component.notifies (component.run .Uninitialized
        [.Initialized, .Ready, .PlayerStateChange .Playing] ctx fresh).2.1
      = [.Playing] := by
  refine ⟨rfl, rfl, rfl, ?_, ?_⟩
  · simp [component.run, component.transition]
  · simp [component.run, component.transition, component.notifies, h]

/-- Witness for C6 with the context of src/main.rs (callback present) and
the counter at 0. -/
theorem C6_scenario_witness :
    (component.transition .Uninitialized .Initialized ctx0 0).1 = .Initialized 0 1
    ∧ (component.transition (.Initialized 0 1) .Ready ctx0 2).1 = .Ready 0 2
    ∧ ext.PlayerState.tryFromData (some 1) = .ok .Playing
    ∧ (component.run .Uninitialized
        [.Initialized, .Ready, .PlayerStateChange .Playing] ctx0 0).1 = .Ready 0 2
    ∧ component.notifies (component.run .Uninitialized
        [.Initialized, .Ready, .PlayerStateChange .Playing] ctx0 0).2.1
      = [.Playing] :=
  C6_scenario ctx0 0 rfl

/-- C7 counterexample: in a healthy browser whose injected script never
loads (network error), `load_iframe_api` neither resolves nor rejects — it
is pending forever — contradicting the claim that its promise rejects. -/
theorem C7_counterexample :
    ext.load_iframe_api envNetFail = .pending
    ∧ (ext.load_iframe_api envNetFail).isRejected = false :=
  ⟨rfl, rfl⟩

/-- C7 amended: when script creation and injection succeed but the script's
`onload` event never fires (network error), the Bootstrap Gate's loading
future never settles — no `onerror` handler exists, so the caller observes
neither resolution nor rejection but waits forever. -/
theorem C7_pending_on_network_failure (env : ext.BrowserEnv)
    (hw : env.windowExists = true) (hd : env.documentExists = true)
    (hc : env.createScriptOk = true) (hb : env.bodyExists = true)
    (ha : env.appendOk = true) (hl : env.scriptOnloadFires = false) :
    ext.load_iframe_api env = .pending := by
  simp [ext.load_iframe_api, hw, hd, hc, hb, ha, hl]

/-- Witness for C7's amended statement in the concrete
network-failure environment. -/
theorem C7_pending_on_network_failure_witness :
    ext.load_iframe_api envNetFail = .pending :=
  C7_pending_on_network_failure envNetFail rfl rfl rfl rfl rfl rfl

/-- C8: when `window.YT` with `Player` is already present as the gate is
awaited, `yt_iframe_api_ready` resolves immediately without injecting any
script element, leaving the shared browser state entirely unchanged. -/
theorem C8_fast_path (env : ext.BrowserEnv) (w : ext.World)
    (hw : env.windowExists = true) (hy : w.ytDefined = true)
    (hp : w.ytHasPlayer = true) :
    ext.gateStart env w = (.done .resolved, w) := by
  simp [ext.gateStart, hw, hy, hp]

/-- Witness for C8: fast path from a world with the API present and no
script injected. -/
theorem C8_fast_path_witness :
    ext.gateStart envOk ⟨true, true, 0, none⟩
      = (.done .resolved, (⟨true, true, 0, none⟩ : ext.World)) :=
  C8_fast_path envOk ⟨true, true, 0, none⟩ rfl rfl rfl

/-- C9 counterexample: two callers that both start awaiting the gate while
the foreign API is absent and before the first load resolves each append
their own script element: two injections in total, not exactly one. -/
theorem C9_counterexample :
    ((ext.gateStart envOk ((ext.gateStart envOk w0).2)).2).scripts = 2
    ∧ ¬ ((ext.gateStart envOk ((ext.gateStart envOk w0).2)).2).scripts = 1 := by
  decide

/-- C9 amended: the gate is not memoized — with two concurrent callers
(0 then 1) starting while the API is absent, each injects its own script
(two injections in total); each caller's `onload` stores its resolver in
the single global `onYouTubeIframeAPIReady` slot, the second overwriting
the first, so when the foreign API fires the ready event only the
later-registered caller resolves while the first remains suspended
forever. -/
theorem C9_no_dedup :
    (ext.apiReadyFire
        (ext.gateOnload 0 (ext.gateStart envOk w0).1
          (ext.gateStart envOk (ext.gateStart envOk w0).2).2).1
        (ext.gateOnload 1 (ext.gateStart envOk (ext.gateStart envOk w0).2).1
          (ext.gateOnload 0 (ext.gateStart envOk w0).1
            (ext.gateStart envOk (ext.gateStart envOk w0).2).2).2).1
        (ext.gateOnload 1 (ext.gateStart envOk (ext.gateStart envOk w0).2).1
          (ext.gateOnload 0 (ext.gateStart envOk w0).1
            (ext.gateStart envOk (ext.gateStart envOk w0).2).2).2).2).2.2.scripts = 2
    ∧ (ext.apiReadyFire
        (ext.gateOnload 0 (ext.gateStart envOk w0).1
          (ext.gateStart envOk (ext.gateStart envOk w0).2).2).1
        (ext.gateOnload 1 (ext.gateStart envOk (ext.gateStart envOk w0).2).1
          (ext.gateOnload 0 (ext.gateStart envOk w0).1
            (ext.gateStart envOk (ext.gateStart envOk w0).2).2).2).1
        (ext.gateOnload 1 (ext.gateStart envOk (ext.gateStart envOk w0).2).1
          (ext.gateOnload 0 (ext.gateStart envOk w0).1
            (ext.gateStart envOk (ext.gateStart envOk w0).2).2).2).2).1
      = .awaitingApiReady
    ∧ (ext.apiReadyFire
        (ext.gateOnload 0 (ext.gateStart envOk w0).1
          (ext.gateStart envOk (ext.gateStart envOk w0).2).2).1
        (ext.gateOnload 1 (ext.gateStart envOk (ext.gateStart envOk w0).2).1
          (ext.gateOnload 0 (ext.gateStart envOk w0).1
            (ext.gateStart envOk (ext.gateStart envOk w0).2).2).2).1
        (ext.gateOnload 1 (ext.gateStart envOk (ext.gateStart envOk w0).2).1
          (ext.gateOnload 0 (ext.gateStart envOk w0).1
            (ext.gateStart envOk (ext.gateStart envOk w0).2).2).2).2).2.1
      = .done .resolved := by
  decide

